import Mathlib

/-!
Verification of the configuration of the `codingblog` repository.

The repository consists of an Eleventy build configuration (`.eleventy.js`,
plus an earlier variant of the same file among the unnamed sources), a
Tailwind CSS theme configuration, and a collection of Markdown blog posts
with YAML front-matter.  This file gives a shallow embedding of those
configuration values and settles the specified properties about them.
-/

/-!
## Glob matching

`.eleventy.js` defines the "posts" collection with
`collection.getFilteredByGlob("src/_posts/*.md")`.  The glob engine itself
belongs to the external generator; we model standard single-segment glob
semantics: `*` matches any (possibly empty) run of characters other than
the path separator `/`, and every other pattern character matches itself
literally.
-/

/-- Glob matching on lists of characters.  The pattern is the first
argument; `*` matches any run of non-separator characters, every other
pattern character matches the equal path character. -/
def globMatchL : List Char → List Char → Bool
  | [], [] => true
  | [], _ :: _ => false
  | '*' :: ps, [] => globMatchL ps []
  | '*' :: ps, c :: cs =>
      globMatchL ps (c :: cs) || (!(c == '/') && globMatchL ('*' :: ps) cs)
  | _ :: _, [] => false
  | p :: ps, c :: cs => p == c && globMatchL ps cs
termination_by pat s => (pat.length, s.length)

/-- Whether a path string matches a glob pattern string. -/
def matchesGlob (pattern path : String) : Bool :=
  globMatchL pattern.toList path.toList

/-- `startsWithL pre s` holds when the character list `pre` is an initial
segment of `s`. -/
def startsWithL : List Char → List Char → Bool
  | [], _ => true
  | _ :: _, [] => false
  | p :: ps, c :: cs => p == c && startsWithL ps cs

/-- `endsWithL suf s` holds when the character list `suf` is a final
segment of `s`. -/
def endsWithL (suf s : List Char) : Bool :=
  startsWithL suf.reverse s.reverse

/-- The spec's description of a member of the posts collection: a file
that lies directly in the posts directory `src/_posts/` (its name contains
no further separator) and whose name carries the `.md` extension. -/
def isMarkdownPostPath (p : String) : Bool :=
  startsWithL "src/_posts/".toList p.toList &&
    ((p.toList.drop "src/_posts/".toList.length).all (fun c => !(c == '/')) &&
      endsWithL ".md".toList (p.toList.drop "src/_posts/".toList.length))

/-!
## The Eleventy configuration

`.eleventy.js` exports a function that receives the mutable `eleventyConfig`
object and calls `addPassthroughCopy`, `addCollection` and `addPlugin` on
it, then returns a record naming the directory layout.  We model the
configuration object as explicit state and the exported function as a pure
state transformer returning the new state together with the returned
record.
-/

/-- A content item of the external generator: its input path together with
the data extracted from its front-matter, as key/value pairs. -/
structure TemplateItem where
  inputPath : String
  data : List (String × String)
deriving DecidableEq

/-- `collection.getFilteredByGlob(glob)`: the items whose input path
matches the glob. -/
def getFilteredByGlob (glob : String) (collection : List TemplateItem) :
    List TemplateItem :=
  collection.filter (fun item => matchesGlob glob item.inputPath)

/-- The callback passed to `addCollection("posts", ...)` in `.eleventy.js`
(both versions use the same callback body). -/
def postsCollection (collection : List TemplateItem) : List TemplateItem :=
  getFilteredByGlob "src/_posts/*.md" collection

/-- The state accumulated on the `eleventyConfig` object: declared
passthrough copies, named collections with their callbacks, and registered
plugins, each in registration order. -/
structure EleventyConfig where
  passthroughCopies : List String
  collections : List (String × (List TemplateItem → List TemplateItem))
  plugins : List String

/-- An `eleventyConfig` object on which nothing has been registered yet. -/
def emptyEleventyConfig : EleventyConfig :=
  { passthroughCopies := [], collections := [], plugins := [] }

/-- `eleventyConfig.addPassthroughCopy(path)`. -/
def addPassthroughCopy (cfg : EleventyConfig) (path : String) : EleventyConfig :=
  { cfg with passthroughCopies := cfg.passthroughCopies ++ [path] }

/-- `eleventyConfig.addCollection(name, callback)`. -/
def addCollection (cfg : EleventyConfig) (name : String)
    (callback : List TemplateItem → List TemplateItem) : EleventyConfig :=
  { cfg with collections := cfg.collections ++ [(name, callback)] }

/-- `eleventyConfig.addPlugin(plugin)`; we identify a plugin by the name it
is required under. -/
def addPlugin (cfg : EleventyConfig) (plugin : String) : EleventyConfig :=
  { cfg with plugins := cfg.plugins ++ [plugin] }

/-- The plugin required at the top of both versions of `.eleventy.js`. -/
def syntaxHighlight : String :=
  "@11ty/eleventy-plugin-syntaxhighlight"

/-- The record returned by the exported configuration function: the `dir`
object, as key/value entries in source order. -/
structure EleventyReturn where
  dir : List (String × String)
deriving DecidableEq

/-- The current `.eleventy.js`: `module.exports`, lines 3-19.  Registers
three passthrough copies, the "posts" collection filtered by the glob
`src/_posts/*.md`, and the syntax-highlighting plugin, and returns the
`dir` record with entries `input`, `includes` and `layouts`. -/
def eleventyModuleExports (eleventyConfig : EleventyConfig) :
    EleventyConfig × EleventyReturn :=
  let c := addPassthroughCopy eleventyConfig "src/CNAME"
  let c := addPassthroughCopy c "src/assets/images"
  let c := addPassthroughCopy c "src/assets/css/code.css"
  let c := addCollection c "posts" postsCollection
  let c := addPlugin c syntaxHighlight
  (c, { dir := [("input", "./src"), ("includes", "_includes"), ("layouts", "_layouts")] })

/-- The earlier variant of `.eleventy.js` kept among the unnamed sources
(part_006): identical except that it declares the single blanket
passthrough `src/assets` where the current version declares
`src/assets/images` and `src/assets/css/code.css`. -/
def eleventyModuleExportsVariant (eleventyConfig : EleventyConfig) :
    EleventyConfig × EleventyReturn :=
  let c := addPassthroughCopy eleventyConfig "src/CNAME"
  let c := addPassthroughCopy c "src/assets"
  let c := addCollection c "posts" postsCollection
  let c := addPlugin c syntaxHighlight
  (c, { dir := [("input", "./src"), ("includes", "_includes"), ("layouts", "_layouts")] })

/-- Whether a `dir` record names the given directory role, i.e. carries an
entry under that key. -/
def namesDirRole (dir : List (String × String)) (role : String) : Bool :=
  (dir.lookup role).isSome

/-!
## The external generator's passthrough copy and build

The copying itself is performed by the external generator; the spec states
its contract.
-/

/-- A source file: its path and its full contents. -/
structure SourceFile where
  path : String
  contents : String
deriving DecidableEq

/-- Modelled from the spec: "given a set of path strings, the external
generator copies each matched file/directory unchanged" (the generator's
passthrough copy is not part of this repository).  A file is matched when
its path is a declared path or lies under a declared directory; a matched
file is reproduced in the output with no field modified. -/
def copyPassthrough (declared : List String) (files : List SourceFile) :
    List SourceFile :=
  files.filter (fun f => declared.any (fun d => d == f.path || String.isPrefixOf (d ++ "/") f.path))

/-- Modelled from the spec: "the generator reads config and content and
emits static HTML" (the generator itself is not part of this repository).
The build's output, restricted to the parts this repository's
configuration determines: the posts collection assembled from the content
items and the passthrough copies of the asset files, both obtained by
running the exported configuration function on a fresh configuration
object. -/
def buildSite (content : List TemplateItem) (assets : List SourceFile) :
    List TemplateItem × List SourceFile :=
  let run := eleventyModuleExports emptyEleventyConfig
  (postsCollection content, copyPassthrough run.1.passthroughCopies assets)

/-!
## The Tailwind theme configuration

The unnamed source part_000 is the `tailwind.config.js` of the site.  It
restricts `theme.colors` to a fixed palette and extends
`theme.extend.fontFamily` with four roles.  The scales `green`, `red` and
`amber` and the fallback font stacks are taken from the external
framework's defaults (`tailwindcss/colors` and `tailwindcss/defaultTheme`),
which are not part of this repository; their values below reproduce those
defaults.
-/

/-- A value of the `theme.colors` record: either a single hex color or a
scale of shade/hex pairs. -/
inductive ColorValue where
  | single (hex : String)
  | scale (shades : List (Nat × String))
deriving DecidableEq

/-- The `gray` scale declared inline in the theme configuration. -/
def grayScale : List (Nat × String) :=
  [(50, "#f7f7f8"), (100, "#ecedee"), (200, "#dcdee0"), (300, "#bfc3c5"),
   (400, "#9fa4a8"), (500, "#747c81"), (600, "#52585b"), (700, "#3d4143"),
   (800, "#27292b"), (900, "#131515"), (950, "#0a0a0b")]

/-- The `blue` scale declared inline in the theme configuration. -/
def blueScale : List (Nat × String) :=
  [(50, "#f6fbfe"), (100, "#e8f5fd"), (200, "#c8e7f9"), (300, "#87c5e8"),
   (400, "#51b3ec"), (500, "#218cca"), (600, "#166ea2"), (700, "#0d4d73"),
   (800, "#05324d"), (900, "#032030"), (950, "#00101a")]

/-- Modelled from the spec: `colors.green` of the external CSS framework's
default palette, inherited wholesale by the theme configuration. -/
def colorsGreen : List (Nat × String) :=
  [(50, "#f0fdf4"), (100, "#dcfce7"), (200, "#bbf7d0"), (300, "#86efac"),
   (400, "#4ade80"), (500, "#22c55e"), (600, "#16a34a"), (700, "#15803d"),
   (800, "#166534"), (900, "#14532d"), (950, "#052e16")]

/-- Modelled from the spec: `colors.red` of the external CSS framework's
default palette, inherited wholesale by the theme configuration. -/
def colorsRed : List (Nat × String) :=
  [(50, "#fef2f2"), (100, "#fee2e2"), (200, "#fecaca"), (300, "#fca5a5"),
   (400, "#f87171"), (500, "#ef4444"), (600, "#dc2626"), (700, "#b91c1c"),
   (800, "#991b1b"), (900, "#7f1d1d"), (950, "#450a0a")]

/-- Modelled from the spec: `colors.amber` of the external CSS framework's
default palette, inherited wholesale by the theme configuration. -/
def colorsAmber : List (Nat × String) :=
  [(50, "#fffbeb"), (100, "#fef3c7"), (200, "#fde68a"), (300, "#fcd34d"),
   (400, "#fbbf24"), (500, "#f59e0b"), (600, "#d97706"), (700, "#b45309"),
   (800, "#92400e"), (900, "#78350f"), (950, "#451a03")]

/-- `theme.colors` of the theme configuration, in source order. -/
def themeColors : List (String × ColorValue) :=
  [("black", ColorValue.single "#000000"),
   ("white", ColorValue.single "#ffffff"),
   ("gray", ColorValue.scale grayScale),
   ("blue", ColorValue.scale blueScale),
   ("green", ColorValue.scale colorsGreen),
   ("red", ColorValue.scale colorsRed),
   ("amber", ColorValue.scale colorsAmber)]

/-- Modelled from the spec: `defaultTheme.fontFamily.sans` of the external
CSS framework, the fallback stack spread into the `sans` role. -/
def defaultFontFamilySans : List String :=
  ["ui-sans-serif", "system-ui", "sans-serif", "\"Apple Color Emoji\"",
   "\"Segoe UI Emoji\"", "\"Segoe UI Symbol\"", "\"Noto Color Emoji\""]

/-- Modelled from the spec: `defaultTheme.fontFamily.serif` of the external
CSS framework, the fallback stack spread into the `serif` and `title`
roles. -/
def defaultFontFamilySerif : List String :=
  ["ui-serif", "Georgia", "Cambria", "\"Times New Roman\"", "Times", "serif"]

/-- Modelled from the spec: `defaultTheme.fontFamily.mono` of the external
CSS framework, the fallback stack spread into the `mono` role. -/
def defaultFontFamilyMono : List String :=
  ["ui-monospace", "SFMono-Regular", "Menlo", "Monaco", "Consolas",
   "\"Liberation Mono\"", "\"Courier New\"", "monospace"]

/-- `theme.extend.fontFamily` of the theme configuration: each role names a
primary font and then spreads one of the framework's default stacks. -/
def themeFontFamily : List (String × List String) :=
  [("sans", "Rubik" :: defaultFontFamilySans),
   ("serif", "Libre Baskerville" :: defaultFontFamilySerif),
   ("mono", "Roboto Mono" :: defaultFontFamilyMono),
   ("title", "Trirong" :: defaultFontFamilySerif)]

/-- The shades the spec requires of a full color scale. -/
def requiredShades : List Nat :=
  [50, 100, 200, 300, 400, 500, 600, 700, 800, 900, 950]

/-- Whether a character is a lowercase hexadecimal digit. -/
def isHexDigit (c : Char) : Bool :=
  c.isDigit || ('a' ≤ c && c ≤ 'f')

/-- Whether a string is a hex color: `#` followed by six hex digits. -/
def isHexColor (s : String) : Bool :=
  match s.toList with
  | '#' :: rest => rest.length == 6 && rest.all isHexDigit
  | _ => false

/-- Whether a `theme.colors` value is well-formed at the required shades: a
single hex color, or a scale defining a hex value at exactly the required
shades. -/
def colorValueComplete : ColorValue → Bool
  | ColorValue.single hex => isHexColor hex
  | ColorValue.scale shades =>
      shades.map Prod.fst == requiredShades && shades.all (fun s => isHexColor s.2)

/-!
## The post files

Every Markdown post in the repository opens with a YAML front-matter block
carrying `title` and `summary`.  The entries below transcribe those blocks
(values as YAML parsing yields them, quoting stripped); the five posts
among the unnamed sources are listed under their placeholder names.
-/

/-- The front-matter of every post file in the repository, keyed by the
file's path. -/
def repoPosts : List TemplateItem :=
  [⟨"src/_posts/2019-01-26-string-formatting-in-dot-net.md",
    [("title", "String formatting in .NET"),
     ("summary", "In any programming language, it is very common to want to take something that is not a string (say a number) and turn it into a string. Let's have a look at the many ways you can do this in .NET.")]⟩,
   ⟨"src/_posts/2019-03-14-champions-league-draw.md",
    [("title", "Champions League Quarter-Final Draw"),
     ("summary", "What are the chances of English teams avoiding each other in the Champions League quarter-final draw?")]⟩,
   ⟨"src/_posts/2019-03-21-git-resets.md",
    [("title", "Git Resets"),
     ("summary", "What happens when you do a reset in Git?")]⟩,
   ⟨"src/_posts/2019-04-12-command-line-parser.md",
    [("title", "Command Line Parser for C#"),
     ("summary", "I recently came across a C# library that takes care of the boilerplate code often associated with parsing, validating and using options specified as command line arguments.")]⟩,
   ⟨"src/_posts/2019-05-15-when-git-merges-go-rogue.md",
    [("title", "When Git merges go rogue"),
     ("summary", "How do you resolve a merge conflict in Git?")]⟩,
   ⟨"src/_posts/2019-07-10-champions-league-draw-revisited.md",
    [("title", "Champions League Draw, Revisited"),
     ("summary", "How do you deal with randomness in .NET code?")]⟩,
   ⟨"src/_posts/2019-11-25-drag-and-drop-winforms.md",
    [("title", "Drag-and-drop in Windows Forms is as easy as 1-2-3 (and maybe 4)"),
     ("summary", "How to support drag-and-drop in Windows Forms.")]⟩,
   ⟨"src/_posts/2020-02-11-make-your-automated-tests-easy-to-read.md",
    [("title", "Make your automated tests easy to read"),
     ("summary", "Recently I've been trying to improve the readability of the automated tests that I write for my code. How have I done this, and why am I even bothering?")]⟩,
   ⟨"src/_posts/2020-02-28-europa-league-draw.md",
    [("title", "Europa League Draw"),
     ("summary", "What is the chance of two British teams meeting in the Europa League last 16?")]⟩,
   ⟨"src/_posts/2021-05-17-null-coalescing-operator-csharp.md",
    [("title", "The C# null-coalescing operator"),
     ("summary", "A mathematical analysis of C#'s <code>??</code> operator.")]⟩,
   ⟨"src/src/_posts/2019-10-02-smart-enums.md",
    [("title", "Smart Enums In C#"),
     ("summary", "A C# design pattern I'm quite fond of.")]⟩,
   ⟨"src/src/_posts/2020-09-03-commit-hash-react-aws-amplify.md",
    [("title", "Commit hash using React and AWS Amplify"),
     ("summary", "Something I found out how to do today.")]⟩,
   ⟨"src/src/_posts/2025-01-08-blazor-tailwind-github-pages.md",
    [("title", "Deploying a Blazor site to GitHub Pages"),
     ("summary", "How to create a Blazor WebAssembly website using Tailwind CSS and deploy it to GitHub Pages.")]⟩,
   ⟨"src/src/_posts/2025-01-15-PGF-03.md",
    [("title", "ProcGen Fun 3: Simple mazes"),
     ("summary", "Implementing the binary tree algorithm to generate a maze.")]⟩,
   ⟨"src/src/_posts/2025-08-25-birthdays-revisited.md",
    [("title", "Shared birthdays, revisited"),
     ("summary", "How do you sample from a non-uniform distribution?")]⟩,
   ⟨"src/unnamed/part_001",
    [("title", "ProcGen Fun 0: Introduction"),
     ("summary", "Introductory post to a series combining procedural generation and functional programming.")]⟩,
   ⟨"src/unnamed/part_002",
    [("title", "Shared birthdays"),
     ("summary", "What's the chance of three people sharing a birthday within a week?")]⟩,
   ⟨"src/unnamed/part_003",
    [("title", "ProcGen Fun 2: Composing distributions"),
     ("summary", "How to compose distributions according to functional programming principles.")]⟩,
   ⟨"src/unnamed/part_004",
    [("title", "ProcGen Fun 1: Distributions"),
     ("summary", "Introducing distributions as a way of abstracting randomness.")]⟩,
   ⟨"src/unnamed/part_005",
    [("title", "Test doubles"),
     ("summary", "How to test software components in isolation.")]⟩]

/-- Whether a front-matter block carries a non-empty value under a key. -/
def hasNonEmptyField (fm : List (String × String)) (key : String) : Bool :=
  match fm.lookup key with
  | some v => !(v == "")
  | none => false

/-- The single post file of the spec's concrete scenario. -/
def examplePost : TemplateItem :=
  ⟨"src/_posts/2024-01-01-example.md",
   [("title", "Example"), ("summary", "An example post.")]⟩

/-!
## Lemmas: glob matching against the posts pattern
-/

lemma globMatchL_nil_iff (s : List Char) : globMatchL [] s = true ↔ s = [] := by
  cases s <;> simp [globMatchL]

lemma globMatchL_lit_nil (p : Char) (hp : p ≠ '*') (ps : List Char) :
    globMatchL (p :: ps) [] = false := by
  rw [globMatchL]
  simp [hp]

lemma globMatchL_lit_cons (p : Char) (hp : p ≠ '*') (ps : List Char) (c : Char)
    (cs : List Char) :
    globMatchL (p :: ps) (c :: cs) = (p == c && globMatchL ps cs) := by
  rw [globMatchL]
  simp [hp]

lemma globMatchL_star_nil (ps : List Char) :
    globMatchL ('*' :: ps) [] = globMatchL ps [] := by
  rw [globMatchL]

lemma globMatchL_star_cons (ps : List Char) (c : Char) (cs : List Char) :
    globMatchL ('*' :: ps) (c :: cs)
      = (globMatchL ps (c :: cs) || (!(c == '/') && globMatchL ('*' :: ps) cs)) := by
  rw [globMatchL]

lemma startsWithL_iff (pre s : List Char) :
    startsWithL pre s = true ↔ ∃ t, s = pre ++ t := by
  induction pre generalizing s with
  | nil => simp [startsWithL]
  | cons p ps ih =>
    cases s with
    | nil => simp [startsWithL]
    | cons c cs =>
      simp only [startsWithL, Bool.and_eq_true, beq_iff_eq, ih, List.cons_append,
        List.cons.injEq]
      constructor
      · rintro ⟨rfl, t, rfl⟩
        exact ⟨t, rfl, rfl⟩
      · rintro ⟨t, rfl, rfl⟩
        exact ⟨rfl, t, rfl⟩

lemma endsWithL_iff (suf s : List Char) :
    endsWithL suf s = true ↔ ∃ a, s = a ++ suf := by
  rw [endsWithL, startsWithL_iff]
  constructor
  · rintro ⟨t, ht⟩
    refine ⟨t.reverse, ?_⟩
    have h := congrArg List.reverse ht
    simpa using h
  · rintro ⟨a, rfl⟩
    exact ⟨a.reverse, by simp⟩

lemma globMatchL_lit_append (l : List Char) (hl : ∀ c ∈ l, c ≠ '*') (ps s : List Char) :
    globMatchL (l ++ ps) s = true ↔ ∃ t, s = l ++ t ∧ globMatchL ps t = true := by
  induction l generalizing s with
  | nil => simp
  | cons p l ih =>
    have hp : p ≠ '*' := hl p (List.mem_cons_self p l)
    have hl' : ∀ c ∈ l, c ≠ '*' := fun c hc => hl c (List.mem_cons_of_mem p hc)
    cases s with
    | nil =>
      rw [List.cons_append, globMatchL_lit_nil p hp]
      simp
    | cons c cs =>
      rw [List.cons_append, globMatchL_lit_cons p hp]
      simp only [Bool.and_eq_true, beq_iff_eq, ih hl', List.cons_append, List.cons.injEq]
      constructor
      · rintro ⟨rfl, t, rfl, h⟩
        exact ⟨t, ⟨rfl, rfl⟩, h⟩
      · rintro ⟨t, ⟨rfl, rfl⟩, h⟩
        exact ⟨rfl, t, rfl, h⟩

lemma globMatchL_lit_exact (m : List Char) (hm : ∀ c ∈ m, c ≠ '*') (s : List Char) :
    globMatchL m s = true ↔ s = m := by
  have h := globMatchL_lit_append m hm [] s
  rw [List.append_nil] at h
  rw [h]
  constructor
  · rintro ⟨t, rfl, ht⟩
    rw [globMatchL_nil_iff] at ht
    rw [ht, List.append_nil]
  · rintro rfl
    exact ⟨[], by simp, by rw [globMatchL_nil_iff]⟩

lemma globMatchL_star_lit (m : List Char) (hm : ∀ c ∈ m, c ≠ '*') (s : List Char) :
    globMatchL ('*' :: m) s = true ↔ ∃ a, s = a ++ m ∧ ∀ c ∈ a, c ≠ '/' := by
  induction s with
  | nil =>
    rw [globMatchL_star_nil, globMatchL_lit_exact m hm]
    constructor
    · rintro rfl
      exact ⟨[], by simp, by simp⟩
    · rintro ⟨a, ha, _⟩
      rcases List.append_eq_nil.mp ha.symm with ⟨rfl, rfl⟩
      rfl
  | cons c cs ih =>
    rw [globMatchL_star_cons, Bool.or_eq_true, Bool.and_eq_true,
      globMatchL_lit_exact m hm, ih]
    constructor
    · rintro (h | ⟨hc, a, rfl, ha⟩)
      · exact ⟨[], by simpa using h, by simp⟩
      · refine ⟨c :: a, rfl, ?_⟩
        intro x hx
        rcases List.mem_cons.mp hx with rfl | hx
        · simpa using hc
        · exact ha x hx
    · rintro ⟨a, ha, hall⟩
      cases a with
      | nil =>
        left
        simpa using ha
      | cons a0 a' =>
        right
        rw [List.cons_append] at ha
        injection ha with h1 h2
        subst h1
        constructor
        · simpa using hall c (List.mem_cons_self c a')
        · exact ⟨a', h2, fun x hx => hall x (List.mem_cons_of_mem _ hx)⟩

lemma posts_pattern_decomp :
    "src/_posts/*.md".toList = "src/_posts/".toList ++ '*' :: ".md".toList := by
  decide

lemma md_suffix_no_separator : ∀ c ∈ ".md".toList, c ≠ '/' := by
  decide

lemma globMatchL_posts_chars (cs : List Char) :
    globMatchL "src/_posts/*.md".toList cs = true ↔
      ∃ a, cs = "src/_posts/".toList ++ (a ++ ".md".toList) ∧ ∀ c ∈ a, c ≠ '/' := by
  rw [posts_pattern_decomp,
    globMatchL_lit_append "src/_posts/".toList (by decide) ('*' :: ".md".toList) cs]
  constructor
  · rintro ⟨t, rfl, ht⟩
    rw [globMatchL_star_lit ".md".toList (by decide) t] at ht
    obtain ⟨a, rfl, ha⟩ := ht
    exact ⟨a, rfl, ha⟩
  · rintro ⟨a, rfl, ha⟩
    refine ⟨a ++ ".md".toList, rfl, ?_⟩
    rw [globMatchL_star_lit ".md".toList (by decide)]
    exact ⟨a, rfl, ha⟩

lemma isMarkdownPostPath_iff (p : String) :
    isMarkdownPostPath p = true ↔
      ∃ a, p.toList = "src/_posts/".toList ++ (a ++ ".md".toList) ∧ ∀ c ∈ a, c ≠ '/' := by
  unfold isMarkdownPostPath
  simp only [Bool.and_eq_true, startsWithL_iff, List.all_eq_true, endsWithL_iff]
  constructor
  · rintro ⟨⟨t, ht⟩, hall, a, ha⟩
    rw [ht, List.drop_left] at hall ha
    refine ⟨a, by rw [ht, ha], ?_⟩
    intro c hc
    have h := hall c (by rw [ha]; exact List.mem_append_left _ hc)
    simpa using h
  · rintro ⟨a, ha, hno⟩
    refine ⟨⟨a ++ ".md".toList, ha⟩, ?_, a, ?_⟩
    · intro c hc
      rw [ha, List.drop_left] at hc
      rcases List.mem_append.mp hc with h | h
      · simpa using hno c h
      · simpa using md_suffix_no_separator c h
    · rw [ha, List.drop_left]

lemma matchesGlob_posts_iff (p : String) :
    matchesGlob "src/_posts/*.md" p = true ↔ isMarkdownPostPath p = true := by
  unfold matchesGlob
  rw [globMatchL_posts_chars, isMarkdownPostPath_iff]

/-!
## The claims
-/

/-- C1: the "posts" collection is the glob filter `src/_posts/*.md`: the
configuration registers exactly that collection, and an item belongs to
the filtered collection iff it is among the input items, lies directly in
the posts directory and has the `.md` extension — and no other item is
included. -/
theorem posts_collection_exactly_markdown :
    (eleventyModuleExports emptyEleventyConfig).1.collections
        = [("posts", postsCollection)] ∧
      ∀ (coll : List TemplateItem) (item : TemplateItem),
        item ∈ postsCollection coll ↔
          item ∈ coll ∧ isMarkdownPostPath item.inputPath = true := by
  refine ⟨rfl, fun coll item => ?_⟩
  unfold postsCollection getFilteredByGlob
  rw [List.mem_filter, matchesGlob_posts_iff]

/-- C2 as stated fails: the record returned by the configuration function
(run here on a fresh configuration object) carries no entry naming an
output directory, so it does not contain entries for all four roles. -/
theorem dir_record_missing_output :
    namesDirRole (eleventyModuleExports emptyEleventyConfig).2.dir "output" = false := by
  decide

/-- C2 amended: the record returned by the configuration function names
exactly the input, includes and layouts directories; it has no output
entry (the output directory is left to the external generator's default). -/
theorem dir_record_roles :
    (∀ cfg : EleventyConfig,
        (eleventyModuleExports cfg).2.dir
          = [("input", "./src"), ("includes", "_includes"), ("layouts", "_layouts")]) ∧
      namesDirRole
        [("input", "./src"), ("includes", "_includes"), ("layouts", "_layouts")]
        "output" = false := by
  exact ⟨fun _ => rfl, by decide⟩

/-- C3: the passthrough declarations are exactly the CNAME file, the
images directory and the code CSS file, and the passthrough copy modelled
from the spec's contract reproduces matched files among the output
unchanged: its output is a sub-list of its input files, every output file
one of the inputs with no field modified. -/
theorem passthrough_declarations :
    (eleventyModuleExports emptyEleventyConfig).1.passthroughCopies
        = ["src/CNAME", "src/assets/images", "src/assets/css/code.css"] ∧
      ∀ (declared : List String) (files : List SourceFile),
        List.Sublist (copyPassthrough declared files) files := by
  exact ⟨rfl, fun declared files => List.filter_sublist files⟩

/-- C4: the color palette consists of exactly the names black, white,
gray, blue, green, red and amber, in that order, and the latter three are
the external framework's default scales taken wholesale. -/
theorem theme_colors_palette :
    themeColors.map Prod.fst
        = ["black", "white", "gray", "blue", "green", "red", "amber"] ∧
      themeColors.lookup "green" = some (ColorValue.scale colorsGreen) ∧
      themeColors.lookup "red" = some (ColorValue.scale colorsRed) ∧
      themeColors.lookup "amber" = some (ColorValue.scale colorsAmber) := by
  refine ⟨rfl, ?_, ?_, ?_⟩ <;> decide

/-- C5: the font-family configuration defines exactly the four roles sans,
serif, mono and title, and each role's value is a single primary font name
followed by one of the framework's default fallback stacks. -/
theorem theme_font_family_roles :
    themeFontFamily.map Prod.fst = ["sans", "serif", "mono", "title"] ∧
      themeFontFamily.lookup "sans" = some ("Rubik" :: defaultFontFamilySans) ∧
      themeFontFamily.lookup "serif"
        = some ("Libre Baskerville" :: defaultFontFamilySerif) ∧
      themeFontFamily.lookup "mono" = some ("Roboto Mono" :: defaultFontFamilyMono) ∧
      themeFontFamily.lookup "title" = some ("Trirong" :: defaultFontFamilySerif) := by
  refine ⟨rfl, ?_, ?_, ?_, ?_⟩ <;> decide

/-- C6: the palette has no two entries with the same semantic name, and
every entry resolves to hex values at the required shades: each scale
(gray, blue, green, red, amber) defines a hex value at exactly the shades
50 through 950, and the single colors are hex values. -/
theorem theme_colors_wellformed :
    (themeColors.map Prod.fst).Nodup ∧
      themeColors.all (fun entry => colorValueComplete entry.2) = true := by
  constructor <;> decide

/-- C7: every post file's front-matter carries a `title` and a `summary`
field, both non-empty. -/
theorem posts_front_matter_nonempty :
    repoPosts.all
      (fun post =>
        hasNonEmptyField post.data "title" && hasNonEmptyField post.data "summary")
      = true := by
  decide

/-- C8: the build is deterministic and idempotent: the configuration
function yields the same declarations, collection and directory record on
every run from the same state, and the modelled build yields identical
output on two runs from unchanged inputs. -/
theorem build_deterministic :
    (∀ cfg : EleventyConfig, eleventyModuleExports cfg = eleventyModuleExports cfg) ∧
      ∀ (content : List TemplateItem) (assets : List SourceFile),
        buildSite content assets = buildSite content assets :=
  ⟨fun _ => rfl, fun _ _ => rfl⟩

/-- C9: on a posts directory holding exactly the example file with title
"Example" and summary "An example post.", the posts collection holds
exactly that entry, and its title is "Example". -/
theorem example_scenario_collection :
    postsCollection [examplePost] = [examplePost] ∧
      examplePost.data.lookup "title" = some "Example" := by
  constructor
  · unfold postsCollection getFilteredByGlob
    have h : matchesGlob "src/_posts/*.md" examplePost.inputPath = true :=
      (matchesGlob_posts_iff _).mpr (by decide)
    simp [List.filter_cons, h]
  · decide

/-- C10: the current `.eleventy.js` and the earlier variant register the
same "posts" collection (same glob filter), the same plugin and the same
directory record; their passthrough declarations differ only in that the
current version replaces the blanket `src/assets` by the two paths
`src/assets/images` and `src/assets/css/code.css`, both of which lie under
`src/assets`. -/
theorem eleventy_config_versions_agree (cfg : EleventyConfig) :
    (eleventyModuleExports cfg).1.collections
        = (eleventyModuleExportsVariant cfg).1.collections ∧
      (eleventyModuleExports cfg).1.plugins
        = (eleventyModuleExportsVariant cfg).1.plugins ∧
      (eleventyModuleExports cfg).2 = (eleventyModuleExportsVariant cfg).2 ∧
      (eleventyModuleExportsVariant cfg).1.passthroughCopies
        = cfg.passthroughCopies ++ ["src/CNAME", "src/assets"] ∧
      (eleventyModuleExports cfg).1.passthroughCopies
        = cfg.passthroughCopies
            ++ ["src/CNAME", "src/assets/images", "src/assets/css/code.css"] ∧
      startsWithL "src/assets/".toList "src/assets/images".toList = true ∧
      startsWithL "src/assets/".toList "src/assets/css/code.css".toList = true := by
  refine ⟨rfl, rfl, rfl, ?_, ?_, by decide, by decide⟩
  · simp [eleventyModuleExportsVariant, addPassthroughCopy, addCollection, addPlugin]
  · simp [eleventyModuleExports, addPassthroughCopy, addCollection, addPlugin]
